import Mathlib

/-!
Shallow embedding of the user service (src/user_service.py): a Tornado HTTP
app over a single sqlite table `users(id PK AUTOINCREMENT, name, created_at,
updated_at)`.  The storage engine is modelled as a list of rows plus the
AUTOINCREMENT counter; each handler becomes a pure function from the request
parameters and the store to an outcome (resulting store, HTTP response, and
the list of parameterized statements executed against the store, in order).
-/

/-- One row of the `users` table. -/
structure UserRow where
  id : Nat
  name : String
  created_at : Nat
  updated_at : Nat
deriving Repr, DecidableEq

/-- The sqlite database: the rows of `users` in insertion (rowid) order and
the next AUTOINCREMENT id.  AUTOINCREMENT ids start at 1 and are never
reused. -/
structure Store where
  rows : List UserRow
  nextId : Nat
deriving Repr, DecidableEq

/-- The freshly created table (init_db on an empty users.db). -/
def emptyStore : Store := { rows := [], nextId := 1 }

/-- Executing `INSERT INTO users (name, created_at, updated_at) VALUES (?,?,?)`:
appends the row with the AUTOINCREMENT id and yields cursor.lastrowid, which
sqlite reports as the id of the inserted row. -/
def insertUser (st : Store) (name : String) (created_at updated_at : Nat) :
    Store × Option Nat :=
  let rid := st.nextId
  ({ rows := st.rows ++ [{ id := rid, name := name,
                           created_at := created_at, updated_at := updated_at }],
     nextId := rid + 1 },
   some rid)

/-- JSON values, as produced by json.dumps on the handler dictionaries. -/
inductive Json where
  | bool : Bool → Json
  | num : Int → Json
  | str : String → Json
  | arr : List Json → Json
  | obj : List (String × Json) → Json
deriving Repr

/-- The row-to-dictionary mapping shared by both read handlers:
`{field: row[field] for field in ["id","name","created_at","updated_at"]}`. -/
def userToJson (u : UserRow) : Json :=
  Json.obj [("id", Json.num (u.id : Int)), ("name", Json.str u.name),
            ("created_at", Json.num (u.created_at : Int)),
            ("updated_at", Json.num (u.updated_at : Int))]

/-- The error envelope `{"result": False, "errors": e}` (e is a string on the
read handlers and a list on the create handler, as in the source). -/
def errorBody (e : Json) : Json :=
  Json.obj [("result", Json.bool false), ("errors", e)]

/-- An HTTP response as produced by BaseHandler.write_json. -/
structure Response where
  status : Nat
  body : Json
deriving Repr

/-- A bound SQL parameter: the handlers bind strings (name) and integers
(limit, offset, id, timestamps). -/
inductive SqlValue where
  | s : String → SqlValue
  | i : Int → SqlValue
deriving Repr, DecidableEq

/-- What one handler invocation did: the store afterwards, the response
written, and the parameterized statements executed against the store in
order. -/
structure HandlerOutcome where
  store : Store
  response : Response
  executed : List (String × List SqlValue)
deriving Repr

/-- ASCII whitespace stripped by the Python int constructor. -/
def isPySpace (c : Char) : Bool :=
  c == ' ' || c == Char.ofNat 9 || c == Char.ofNat 10 || c == Char.ofNat 11 ||
  c == Char.ofNat 12 || c == Char.ofNat 13

/-- Value of a nonempty all-digit character list, else none. -/
def decDigits (cs : List Char) : Option Nat :=
  if !cs.isEmpty && cs.all Char.isDigit then
    some (cs.foldl (fun a c => a * 10 + (c.toNat - 48)) 0)
  else none

/-- Python int(s) on a string: strips surrounding whitespace, allows one
optional sign, then decimal digits; any other content raises ValueError,
modelled as none. -/
def pyInt (s : String) : Option Int :=
  let cs := ((s.data.dropWhile isPySpace).reverse.dropWhile isPySpace).reverse
  match cs with
  | [] => none
  | c :: rest =>
    if c == '-' then (decDigits rest).map (fun n => -(n : Int))
    else if c == '+' then (decDigits rest).map (fun n => (n : Int))
    else (decDigits cs).map (fun n => (n : Int))

/-- Python str(x) where x is already a str: returns the same string and can
never raise.  The Option result mirrors the try/except in the source, whose
except branch would produce the "invalid id" error. -/
def pyStr (s : String) : Option String := some s

/-- Characters of the regex class in the name validator: hyphen, apostrophe
(codepoint 39), ASCII letters and space. -/
def isNameChar (c : Char) : Bool :=
  c == '-' || c == Char.ofNat 39 || ('a' ≤ c && c ≤ 'z') ||
  ('A' ≤ c && c ≤ 'Z') || c == ' '

/-- Python re.match on the validator pattern (one or more name characters
anchored at both ends).  The Python dollar anchor matches at the end of the
string or just before one newline at the end of the string, so a single
trailing newline (codepoint 10) is tolerated. -/
def re_match_name (s : String) : Bool :=
  let cs := s.data
  let body := if cs.getLast? = some (Char.ofNat 10) then cs.dropLast else cs
  !body.isEmpty && body.all isNameChar

/-- UsersHandler._validate_name: on a regex match returns the name unchanged,
otherwise appends "invalid name sequence" to the error list and returns
None. -/
def validate_name (name : String) (errors : List String) :
    Option String × List String :=
  if re_match_name name then (some name, errors)
  else (none, errors ++ ["invalid name sequence"])

/-- Query parameters of GET /users; none means the parameter was absent. -/
structure ListRequest where
  page_num : Option String
  page_size : Option String
  name : Option String
deriving Repr, DecidableEq

/-- get_argument with an integer default followed by int(): the default is
already an int, a supplied value is a string fed to the Python int
constructor. -/
def parse_page_param (raw : Option String) (dflt : Int) : Option Int :=
  match raw with
  | none => some dflt
  | some s => pyInt s

/-- Insertion into a list kept in decreasing created_at order. -/
def insertDescByCreated (u : UserRow) : List UserRow → List UserRow
  | [] => [u]
  | v :: vs =>
    if v.created_at ≤ u.created_at then u :: v :: vs
    else v :: insertDescByCreated u vs

/-- ORDER BY created_at DESC. -/
def sortByCreatedDesc (rs : List UserRow) : List UserRow :=
  rs.foldr insertDescByCreated []

/-- sqlite semantics of the built select: optional exact name filter, order
by created_at descending, then OFFSET (a negative offset behaves like 0) and
LIMIT (a negative limit means no limit). -/
def runUsersSelect (st : Store) (nameFilter : Option String)
    (limit offset : Int) : List UserRow :=
  let rows := match nameFilter with
              | some n => st.rows.filter (fun r => r.name == n)
              | none => st.rows
  let rows := sortByCreatedDesc rows
  let rows := rows.drop offset.toNat
  if limit < 0 then rows else rows.take limit.toNat

/-- UsersHandler.get: parse page_num and page_size (each short-circuits to a
400 on parse failure), pass the optional name through str(), build the select
statement by concatenation, execute it, and write the users envelope. -/
def users_get (st : Store) (req : ListRequest) : HandlerOutcome :=
  match parse_page_param req.page_num 1 with
  | none =>
    { store := st,
      response := { status := 400, body := errorBody (Json.str "invalid page_num") },
      executed := [] }
  | some page_num =>
  match parse_page_param req.page_size 10 with
  | none =>
    { store := st,
      response := { status := 400, body := errorBody (Json.str "invalid page_size") },
      executed := [] }
  | some page_size =>
  match (match req.name with
         | none => Except.ok (none : Option String)
         | some raw =>
           match pyStr raw with
           | some s2 => Except.ok (some s2)
           | none => Except.error ()) with
  | Except.error _ =>
    { store := st,
      response := { status := 400, body := errorBody (Json.str "invalid id") },
      executed := [] }
  | Except.ok name =>
    let select_stmt := "SELECT * FROM users"
    let select_stmt := if name.isSome then select_stmt ++ " WHERE name=?" else select_stmt
    let limit := page_size
    let offset := (page_num - 1) * page_size
    let select_stmt := select_stmt ++ " ORDER BY created_at DESC LIMIT ? OFFSET ?"
    let args := match name with
                | some n => [SqlValue.s n, SqlValue.i limit, SqlValue.i offset]
                | none => [SqlValue.i limit, SqlValue.i offset]
    let rows := runUsersSelect st name limit offset
    { store := st,
      response := { status := 200,
                    body := Json.obj [("result", Json.bool true),
                                      ("users", Json.arr (rows.map userToJson))] },
      executed := [(select_stmt, args)] }

/-- The insert statement text exactly as concatenated in UsersHandler.post. -/
def insert_user_stmt : String :=
  "INSERT INTO \x27users\x27 (\x27name\x27,\x27created_at\x27, \x27updated_at\x27) VALUES (?, ?, ?)"

/-- Lines 124 to 141 of the source: the response written after the insert, as
a function of cursor.lastrowid. -/
def post_response_after_insert (name_val : String) (time_now : Nat)
    (lastrowid : Option Nat) : Response :=
  match lastrowid with
  | none =>
    { status := 500,
      body := errorBody (Json.arr [Json.str "Error while adding user to db"]) }
  | some rid =>
    { status := 200,
      body := Json.obj [("result", Json.bool true),
                        ("user", userToJson { id := rid, name := name_val,
                                              created_at := time_now,
                                              updated_at := time_now })] }

/-- UsersHandler.post with the name argument present (a missing name raises
inside get_argument before this body runs) and time_now the value of
int(time.time() * 1e6).  When validation fails the 400 is written with the
error list and nothing is executed; otherwise the single insert runs and the
response is determined by lastrowid.  When the error list is empty the
validator returned some name, so the getD default is never used. -/
def users_post (st : Store) (name : String) (time_now : Nat) : HandlerOutcome :=
  let v := validate_name name []
  if v.2.length > 0 then
    { store := st,
      response := { status := 400, body := errorBody (Json.arr (v.2.map Json.str)) },
      executed := [] }
  else
    let name_val := v.1.getD name
    let ins := insertUser st name_val time_now time_now
    { store := ins.1,
      response := post_response_after_insert name_val time_now ins.2,
      executed := [(insert_user_stmt,
                    [SqlValue.s name_val, SqlValue.i (time_now : Int),
                     SqlValue.i (time_now : Int)])] }

/-- UserByIdHandler.get.  The captured path segment is user_id; only when it
is not None is it parsed as an integer, is the WHERE clause appended and is
the args tuple assigned, so with a None user_id the final cursor.execute
call would read the never-assigned local args and raise UnboundLocalError,
modelled by the error case. -/
def user_by_id_get (st : Store) (user_id : Option String) :
    Except String HandlerOutcome :=
  match user_id with
  | some raw =>
    match pyInt raw with
    | none =>
      Except.ok { store := st,
                  response := { status := 400,
                                body := errorBody (Json.str "invalid user_id") },
                  executed := [] }
    | some uid =>
      let select_stmt := "SELECT * FROM users" ++ " WHERE id=?"
      let args := [SqlValue.i uid]
      let rows := st.rows.filter (fun r => (r.id : Int) == uid)
      Except.ok { store := st,
                  response := { status := 200,
                                body := Json.obj [("result", Json.bool true),
                                                  ("userById", Json.arr (rows.map userToJson))] },
                  executed := [(select_stmt, args)] }
  | none =>
    Except.error "UnboundLocalError: local variable args referenced before assignment"

/-- Routes of make_app, tried in order. -/
inductive Route where
  | ping
  | userById (user_id : String)
  | usersList
  | noMatch
deriving Repr, DecidableEq

/-- The literal characters of the path prefix in the pattern /users/([^/]+). -/
def route_prefix_chars : List Char := ['/', 'u', 's', 'e', 'r', 's', '/']

/-- Full match of the anchored pattern /users/([^/]+): the capture is one or
more characters none of which is a slash (codepoint 47). -/
def user_by_id_capture (path : String) : Option String :=
  let cs := path.data
  if cs.take 7 = route_prefix_chars then
    let seg := cs.drop 7
    if seg ≠ [] ∧ Char.ofNat 47 ∉ seg then some (String.mk seg) else none
  else none

/-- Tornado dispatch over the handler table of make_app: patterns are
anchored and tried in order, so /users/ping wins over the capture pattern. -/
def match_route (path : String) : Route :=
  if path = "/users/ping" then Route.ping
  else match user_by_id_capture path with
       | some seg => Route.userById seg
       | none => if path = "/users" then Route.usersList else Route.noMatch

/-- Store states reachable from the fresh table through the handlers of this
core (the create handler is the only mutating operation; both read handlers
leave the store as they found it). -/
inductive Reachable : Store → Prop where
  | init : Reachable emptyStore
  | post (st : Store) (name : String) (time_now : Nat) :
      Reachable st → Reachable (users_post st name time_now).store
  | list (st : Store) (req : ListRequest) :
      Reachable st → Reachable (users_get st req).store
  | byId (st : Store) (user_id : Option String) (o : HandlerOutcome) :
      Reachable st → user_by_id_get st user_id = Except.ok o → Reachable o.store

/-- Acceptance predicate of the validator written in the amended spec style:
either every character of the nonempty string is an allowed name character,
or the string is a nonempty run of allowed characters followed by one final
newline. -/
def nameSpecAccepted (s : String) : Prop :=
  (s.data ≠ [] ∧ ∀ c ∈ s.data, isNameChar c = true) ∨
  (∃ t, s.data = t ++ [Char.ofNat 10] ∧ t ≠ [] ∧ ∀ c ∈ t, isNameChar c = true)

/-- The store invariants maintained by the handlers: every id is below the
AUTOINCREMENT counter, ids are pairwise distinct, and both timestamp columns
of every row are equal. -/
def StoreInv (st : Store) : Prop :=
  (∀ r ∈ st.rows, r.id < st.nextId) ∧
  st.rows.Pairwise (fun a b => a.id ≠ b.id) ∧
  (∀ r ∈ st.rows, r.created_at = r.updated_at)

theorem users_post_invalid_eq (st : Store) (name : String) (t : Nat)
    (hm : re_match_name name = false) :
    users_post st name t =
      { store := st,
        response := { status := 400,
                      body := errorBody (Json.arr [Json.str "invalid name sequence"]) },
        executed := [] } := by
  simp [users_post, validate_name, hm]

theorem users_post_valid_eq (st : Store) (name : String) (t : Nat)
    (hm : re_match_name name = true) :
    users_post st name t =
      { store := { rows := st.rows ++ [{ id := st.nextId, name := name,
                                         created_at := t, updated_at := t }],
                   nextId := st.nextId + 1 },
        response := post_response_after_insert name t (some st.nextId),
        executed := [(insert_user_stmt,
                      [SqlValue.s name, SqlValue.i (t : Int), SqlValue.i (t : Int)])] } := by
  simp [users_post, validate_name, hm, insertUser]

theorem users_get_store (st : Store) (req : ListRequest) :
    (users_get st req).store = st := by
  unfold users_get
  repeat first | rfl | split

theorem user_by_id_get_store (st : Store) (user_id : Option String)
    (o : HandlerOutcome) (h : user_by_id_get st user_id = Except.ok o) :
    o.store = st := by
  rcases user_id with _ | raw
  · simp [user_by_id_get] at h
  · rcases hp : pyInt raw with _ | uid <;>
      (simp only [user_by_id_get, hp, Except.ok.injEq] at h; subst h; rfl)

theorem reachable_inv {st : Store} (h : Reachable st) : StoreInv st := by
  induction h with
  | init =>
    exact ⟨by simp [emptyStore], by simp [emptyStore], by simp [emptyStore]⟩
  | post st name t _ ih =>
    by_cases hm : re_match_name name
    · rw [users_post_valid_eq st name t hm]
      obtain ⟨hlt, hpw, hcu⟩ := ih
      refine ⟨?_, ?_, ?_⟩
      · intro r hr2
        rcases List.mem_append.mp hr2 with h1 | h1
        · exact Nat.lt_succ_of_lt (hlt r h1)
        · simp only [List.mem_singleton] at h1
          subst h1
          exact Nat.lt_succ_self _
      · refine List.pairwise_append.mpr ⟨hpw, List.pairwise_singleton _ _, ?_⟩
        intro a ha b hb
        simp only [List.mem_singleton] at hb
        subst hb
        exact Nat.ne_of_lt (hlt a ha)
      · intro r hr2
        rcases List.mem_append.mp hr2 with h1 | h1
        · exact hcu r h1
        · simp only [List.mem_singleton] at h1
          subst h1
          rfl
    · rw [users_post_invalid_eq st name t (by simpa using hm)]
      exact ih
  | list st req _ ih =>
    rw [users_get_store st req]
    exact ih
  | byId st user_id o _ heq ih =>
    rw [user_by_id_get_store st user_id o heq]
    exact ih

/-- C8: a POST /users request that fails name validation performs no store
mutation: the store afterwards equals the store before, no statement was
executed against the store, and the 400 response carrying the validation
errors is written. -/
theorem post_validation_failure_no_mutation (st : Store) (name : String)
    (time_now : Nat) (hm : re_match_name name = false) :
    (users_post st name time_now).store = st ∧
    (users_post st name time_now).executed = [] ∧
    (users_post st name time_now).response =
      { status := 400,
        body := errorBody (Json.arr [Json.str "invalid name sequence"]) } := by
  rw [users_post_invalid_eq st name time_now hm]
  exact ⟨rfl, rfl, rfl⟩

theorem post_validation_failure_no_mutation_witness :
    re_match_name "J4ne" = false ∧
    ((users_post emptyStore "J4ne" 5).store = emptyStore ∧
     (users_post emptyStore "J4ne" 5).executed = [] ∧
     (users_post emptyStore "J4ne" 5).response =
       { status := 400,
         body := errorBody (Json.arr [Json.str "invalid name sequence"]) }) :=
  ⟨by decide, post_validation_failure_no_mutation emptyStore "J4ne" 5 (by decide)⟩

/-- C4: in every store state reachable from the empty table through the
operations of this core, every row satisfies created_at = updated_at, the
create handler being the only mutating operation and inserting both fields
with the same timestamp. -/
theorem reachable_created_eq_updated (st : Store) (h : Reachable st) :
    ∀ r ∈ st.rows, r.created_at = r.updated_at :=
  (reachable_inv h).2.2

theorem reachable_created_eq_updated_witness :
    Reachable (users_post emptyStore "Jane Doe" 3).store ∧
    ∀ r ∈ (users_post emptyStore "Jane Doe" 3).store.rows,
      r.created_at = r.updated_at :=
  ⟨Reachable.post emptyStore "Jane Doe" 3 Reachable.init,
   reachable_created_eq_updated _ (Reachable.post emptyStore "Jane Doe" 3 Reachable.init)⟩

/-- C6: a POST /users with a name passing validation computes one timestamp
now, executes exactly one insert binding (name, now, now), and the written
response is a function of the lastrowid the store reports: in this store
model the fresh id is always reported; a missing lastrowid yields the 500
envelope with an error list, and a reported id yields the 200 envelope whose
id is the row id and whose created_at and updated_at both equal now. -/
theorem post_success_behavior (st : Store) (name : String) (now : Nat)
    (hm : re_match_name name = true) :
    users_post st name now =
      { store := { rows := st.rows ++ [{ id := st.nextId, name := name,
                                         created_at := now, updated_at := now }],
                   nextId := st.nextId + 1 },
        response := post_response_after_insert name now (insertUser st name now now).2,
        executed := [(insert_user_stmt,
                      [SqlValue.s name, SqlValue.i (now : Int), SqlValue.i (now : Int)])] } ∧
    (insertUser st name now now).2 = some st.nextId ∧
    post_response_after_insert name now none =
      { status := 500,
        body := errorBody (Json.arr [Json.str "Error while adding user to db"]) } ∧
    ∀ rid : Nat, post_response_after_insert name now (some rid) =
      { status := 200,
        body := Json.obj [("result", Json.bool true),
                          ("user", Json.obj [("id", Json.num (rid : Int)),
                                             ("name", Json.str name),
                                             ("created_at", Json.num (now : Int)),
                                             ("updated_at", Json.num (now : Int))])] } := by
  refine ⟨?_, rfl, rfl, fun rid => rfl⟩
  rw [users_post_valid_eq st name now hm]
  rfl

theorem post_success_behavior_witness :
    re_match_name "Jane Doe" = true ∧
    (users_post emptyStore "Jane Doe" 5 =
      { store := { rows := emptyStore.rows ++
                     [{ id := emptyStore.nextId, name := "Jane Doe",
                        created_at := 5, updated_at := 5 }],
                   nextId := emptyStore.nextId + 1 },
        response := post_response_after_insert "Jane Doe" 5
          (insertUser emptyStore "Jane Doe" 5 5).2,
        executed := [(insert_user_stmt,
                      [SqlValue.s "Jane Doe", SqlValue.i (5 : Int), SqlValue.i (5 : Int)])] } ∧
     (insertUser emptyStore "Jane Doe" 5 5).2 = some emptyStore.nextId ∧
     post_response_after_insert "Jane Doe" 5 none =
       { status := 500,
         body := errorBody (Json.arr [Json.str "Error while adding user to db"]) } ∧
     ∀ rid : Nat, post_response_after_insert "Jane Doe" 5 (some rid) =
       { status := 200,
         body := Json.obj [("result", Json.bool true),
                           ("user", Json.obj [("id", Json.num (rid : Int)),
                                              ("name", Json.str "Jane Doe"),
                                              ("created_at", Json.num (5 : Int)),
                                              ("updated_at", Json.num (5 : Int))])] }) :=
  ⟨by decide, post_success_behavior emptyStore "Jane Doe" 5 (by decide)⟩

/-- C2: for a GET /users whose effective page_num and page_size parse as
integers, the executed statement is SELECT * FROM users, gaining WHERE
name=? exactly when a name filter is present and always ending with the
ORDER BY created_at DESC LIMIT ? OFFSET ? tail; the bound arguments are the
name value first when present, then limit = page_size and
offset = (page_num - 1) * page_size. -/
theorem users_get_query_shape (st : Store) (req : ListRequest) (pn ps : Int)
    (hpn : parse_page_param req.page_num 1 = some pn)
    (hps : parse_page_param req.page_size 10 = some ps) :
    (users_get st req).executed =
      [("SELECT * FROM users" ++ (if req.name.isSome then " WHERE name=?" else "") ++
          " ORDER BY created_at DESC LIMIT ? OFFSET ?",
        (match req.name with
         | some n => [SqlValue.s n]
         | none => ([] : List SqlValue)) ++
          [SqlValue.i ps, SqlValue.i ((pn - 1) * ps)])] := by
  unfold users_get
  rw [hpn, hps]
  rcases hn : req.name with _ | n <;> simp [pyStr, hn]

theorem users_get_query_shape_witness :
    parse_page_param (some "2") 1 = some 2 ∧
    parse_page_param (some "5") 10 = some 5 ∧
    (users_get emptyStore
        { page_num := some "2", page_size := some "5", name := some "Alice" }).executed =
      [("SELECT * FROM users" ++
          (if ({ page_num := some "2", page_size := some "5",
                 name := some "Alice" } : ListRequest).name.isSome
           then " WHERE name=?" else "") ++
          " ORDER BY created_at DESC LIMIT ? OFFSET ?",
        (match ({ page_num := some "2", page_size := some "5",
                  name := some "Alice" } : ListRequest).name with
         | some n => [SqlValue.s n]
         | none => ([] : List SqlValue)) ++
          [SqlValue.i 5, SqlValue.i ((2 - 1) * 5)])] :=
  ⟨by decide, by decide,
   users_get_query_shape emptyStore
     { page_num := some "2", page_size := some "5", name := some "Alice" }
     2 5 (by decide) (by decide)⟩

/-- C5: a GET /users whose supplied page_num fails integer parsing is
answered 400 naming page_num with nothing executed; when page_num parses and
the supplied page_size fails, the 400 names page_size with nothing executed;
and a GET /users/{id} whose path segment fails integer parsing is answered
400 naming user_id with nothing executed. -/
theorem invalid_int_params_short_circuit (st : Store) (req : ListRequest)
    (s t u : String) :
    (req.page_num = some s → pyInt s = none →
      users_get st req =
        { store := st,
          response := { status := 400, body := errorBody (Json.str "invalid page_num") },
          executed := [] }) ∧
    ((∃ pn, parse_page_param req.page_num 1 = some pn) →
      req.page_size = some t → pyInt t = none →
      users_get st req =
        { store := st,
          response := { status := 400, body := errorBody (Json.str "invalid page_size") },
          executed := [] }) ∧
    (pyInt u = none →
      user_by_id_get st (some u) =
        Except.ok { store := st,
                    response := { status := 400,
                                  body := errorBody (Json.str "invalid user_id") },
                    executed := [] }) := by
  refine ⟨?_, ?_, ?_⟩
  · intro h1 h2
    unfold users_get
    rw [h1]
    simp [parse_page_param, h2]
  · rintro ⟨pn, hpn⟩ h1 h2
    unfold users_get
    rw [hpn, h1]
    simp [parse_page_param, h2]
  · intro h
    simp [user_by_id_get, h]

theorem invalid_int_params_short_circuit_witness :
    (pyInt "abc" = none ∧
     users_get emptyStore { page_num := some "abc", page_size := none, name := none } =
       { store := emptyStore,
         response := { status := 400, body := errorBody (Json.str "invalid page_num") },
         executed := [] }) ∧
    (pyInt "9x" = none ∧
     users_get emptyStore { page_num := none, page_size := some "9x", name := none } =
       { store := emptyStore,
         response := { status := 400, body := errorBody (Json.str "invalid page_size") },
         executed := [] }) ∧
    (pyInt "12.5" = none ∧
     user_by_id_get emptyStore (some "12.5") =
       Except.ok { store := emptyStore,
                   response := { status := 400,
                                 body := errorBody (Json.str "invalid user_id") },
                   executed := [] }) :=
  ⟨⟨by decide,
    (invalid_int_params_short_circuit emptyStore
      { page_num := some "abc", page_size := none, name := none }
      "abc" "9x" "12.5").1 rfl (by decide)⟩,
   ⟨by decide,
    (invalid_int_params_short_circuit emptyStore
      { page_num := none, page_size := some "9x", name := none }
      "abc" "9x" "12.5").2.1 ⟨1, rfl⟩ rfl (by decide)⟩,
   ⟨by decide,
    (invalid_int_params_short_circuit emptyStore
      { page_num := none, page_size := none, name := none }
      "abc" "9x" "12.5").2.2 (by decide)⟩⟩

theorem re_match_name_iff (s : String) :
    re_match_name s = true ↔ nameSpecAccepted s := by
  simp only [re_match_name, nameSpecAccepted]
  rcases List.eq_nil_or_concat s.data with h | ⟨L, b, h⟩
  · rw [h]
    simp
  · rw [List.concat_eq_append] at h
    rw [h, List.getLast?_concat, List.dropLast_concat]
    by_cases hb : b = Char.ofNat 10
    · subst hb
      rw [if_pos rfl]
      simp only [Bool.and_eq_true, Bool.not_eq_true', List.isEmpty_eq_false,
                 List.all_eq_true]
      constructor
      · intro hm
        exact Or.inr ⟨L, rfl, hm.1, hm.2⟩
      · rintro (⟨_, hall⟩ | ⟨t, heq, ht1, ht2⟩)
        · exact absurd
            (hall (Char.ofNat 10)
              (List.mem_append_right L (List.mem_singleton_self _)))
            (by decide)
        · have hLt : L = t := List.append_cancel_right heq
          subst hLt
          exact ⟨ht1, ht2⟩
    · rw [if_neg (by simp [hb])]
      simp only [Bool.and_eq_true, Bool.not_eq_true', List.isEmpty_eq_false,
                 List.all_eq_true]
      constructor
      · intro hm
        exact Or.inl hm
      · rintro (hm | ⟨t, heq, _, _⟩)
        · exact hm
        · exfalso
          have hlast := congrArg List.getLast? heq
          rw [List.getLast?_concat, List.getLast?_concat] at hlast
          exact hb (Option.some.inj hlast)

/-- C1 counterexample: the two-character string consisting of the letter A
followed by a newline contains a character outside the allowed set, yet the
validator accepts it and returns it unchanged, because the Python dollar
anchor also matches just before one newline at the end of the string. -/
theorem validate_name_trailing_newline_counterexample :
    validate_name "A\n" [] = (some "A\n", []) ∧
    Char.ofNat 10 ∈ "A\n".data ∧ isNameChar (Char.ofNat 10) = false :=
  ⟨by decide, by decide, by decide⟩

/-- C1 (amended): the validator returns a string unchanged with no error
exactly when it is a nonempty run of ASCII letters, spaces, hyphens and
apostrophes optionally followed by one final newline; every other string is
rejected with the single error message invalid name sequence. -/
theorem validate_name_characterization (s : String) :
    (validate_name s [] = (some s, []) ↔ nameSpecAccepted s) ∧
    (¬ nameSpecAccepted s →
      validate_name s [] = (none, ["invalid name sequence"])) := by
  constructor
  · rw [← re_match_name_iff]
    unfold validate_name
    constructor
    · intro h
      by_cases hm : re_match_name s
      · exact hm
      · rw [if_neg (by simp [hm])] at h
        exact absurd (congrArg Prod.fst h) (by simp)
    · intro h
      rw [if_pos h]
  · rw [← re_match_name_iff]
    intro h
    unfold validate_name
    rw [if_neg h]
    rfl

theorem validate_name_characterization_witness :
    (¬ nameSpecAccepted "J4ne") ∧
    ((validate_name "J4ne" [] = (some "J4ne", []) ↔ nameSpecAccepted "J4ne") ∧
     (¬ nameSpecAccepted "J4ne" →
       validate_name "J4ne" [] = (none, ["invalid name sequence"]))) :=
  ⟨by rw [← re_match_name_iff]; decide, validate_name_characterization "J4ne"⟩

theorem filter_id_eq_nil (rows : List UserRow) (n : Int)
    (h : ∀ r ∈ rows, (r.id : Int) ≠ n) :
    rows.filter (fun r => (r.id : Int) == n) = [] :=
  List.filter_eq_nil_iff.mpr (fun r hr => by simpa using h r hr)

theorem filter_id_length_le_one (rows : List UserRow) (n : Int)
    (hpw : rows.Pairwise (fun a b => a.id ≠ b.id)) :
    (rows.filter (fun r => (r.id : Int) == n)).length ≤ 1 := by
  induction rows with
  | nil => simp
  | cons r rs ih =>
    rcases List.pairwise_cons.mp hpw with ⟨hr, hrs⟩
    by_cases hc : ((r.id : Int) == n) = true
    · have hnil : rs.filter (fun t => (t.id : Int) == n) = [] := by
        apply filter_id_eq_nil
        intro t ht he
        have hrn : (r.id : Int) = n := by simpa using hc
        exact hr t ht (by exact_mod_cast hrn.trans he.symm)
      simp [List.filter_cons, hc, hnil]
    · have hc2 : ((r.id : Int) == n) = false := by
        simpa using hc
      simp only [List.filter_cons, hc2, Bool.false_eq_true, if_false]
      exact ih hrs

theorem filter_id_eq_singleton (rows : List UserRow) (n : Int) (r : UserRow)
    (hpw : rows.Pairwise (fun a b => a.id ≠ b.id)) (hr : r ∈ rows)
    (hid : (r.id : Int) = n) :
    rows.filter (fun t => (t.id : Int) == n) = [r] := by
  induction rows with
  | nil => cases hr
  | cons a rs ih =>
    rcases List.pairwise_cons.mp hpw with ⟨ha, hrs⟩
    rcases List.mem_cons.mp hr with h | h
    · subst h
      have hc : ((r.id : Int) == n) = true := by simpa using hid
      have hnil : rs.filter (fun t => (t.id : Int) == n) = [] := by
        apply filter_id_eq_nil
        intro t ht he
        exact ha t ht (by exact_mod_cast hid.trans he.symm)
      simp [List.filter_cons, hc, hnil]
    · have hc : ((a.id : Int) == n) = false := by
        rw [beq_eq_false_iff_ne]
        intro he
        exact ha r h (by exact_mod_cast he.trans hid.symm)
      simp only [List.filter_cons, hc, Bool.false_eq_true, if_false]
      exact ih hrs h

/-- C3: creating a user with a valid name and then fetching it by the id
returned from the create operation yields the 200 create envelope carrying
the fresh id and the timestamp in both date fields, and the fetch returns
exactly that one record with identical id, name, created_at and updated_at,
with created_at equal to updated_at. -/
theorem create_then_fetch_roundtrip (st : Store) (name uid : String) (now : Nat)
    (hst : Reachable st) (hname : re_match_name name = true)
    (huid : pyInt uid = some (st.nextId : Int)) :
    (users_post st name now).response =
      { status := 200,
        body := Json.obj [("result", Json.bool true),
                          ("user", userToJson { id := st.nextId, name := name,
                                                created_at := now, updated_at := now })] } ∧
    user_by_id_get (users_post st name now).store (some uid) =
      Except.ok
        { store := (users_post st name now).store,
          response := { status := 200,
                        body := Json.obj [("result", Json.bool true),
                                          ("userById",
                                           Json.arr [userToJson { id := st.nextId, name := name,
                                                                  created_at := now,
                                                                  updated_at := now }])] },
          executed := [("SELECT * FROM users" ++ " WHERE id=?",
                        [SqlValue.i (st.nextId : Int)])] } ∧
    (UserRow.mk st.nextId name now now).created_at =
      (UserRow.mk st.nextId name now now).updated_at := by
  have hpost := users_post_valid_eq st name now hname
  refine ⟨?_, ?_, rfl⟩
  · rw [hpost]
    rfl
  · rw [hpost]
    have hfilter :
        ((st.rows ++ [{ id := st.nextId, name := name,
                        created_at := now, updated_at := now }] : List UserRow).filter
          (fun r => (r.id : Int) == (st.nextId : Int))) =
        [{ id := st.nextId, name := name, created_at := now, updated_at := now }] := by
      rw [List.filter_append]
      have hnil : st.rows.filter (fun r => (r.id : Int) == (st.nextId : Int)) = [] := by
        apply filter_id_eq_nil
        intro r hrmem he
        have : r.id = st.nextId := by exact_mod_cast he
        exact Nat.ne_of_lt ((reachable_inv hst).1 r hrmem) this
      rw [hnil]
      simp
    simp only [user_by_id_get, huid]
    rw [hfilter]
    rfl

theorem create_then_fetch_roundtrip_witness :
    Reachable emptyStore ∧ re_match_name "Jane Doe" = true ∧
    pyInt "1" = some (emptyStore.nextId : Int) ∧
    ((users_post emptyStore "Jane Doe" 7).response =
      { status := 200,
        body := Json.obj [("result", Json.bool true),
                          ("user", userToJson { id := emptyStore.nextId, name := "Jane Doe",
                                                created_at := 7, updated_at := 7 })] } ∧
     user_by_id_get (users_post emptyStore "Jane Doe" 7).store (some "1") =
       Except.ok
         { store := (users_post emptyStore "Jane Doe" 7).store,
           response := { status := 200,
                         body := Json.obj [("result", Json.bool true),
                                           ("userById",
                                            Json.arr [userToJson { id := emptyStore.nextId,
                                                                   name := "Jane Doe",
                                                                   created_at := 7,
                                                                   updated_at := 7 }])] },
           executed := [("SELECT * FROM users" ++ " WHERE id=?",
                         [SqlValue.i (emptyStore.nextId : Int)])] } ∧
     (UserRow.mk emptyStore.nextId "Jane Doe" 7 7).created_at =
       (UserRow.mk emptyStore.nextId "Jane Doe" 7 7).updated_at) :=
  ⟨Reachable.init, by decide, by decide,
   create_then_fetch_roundtrip emptyStore "Jane Doe" "1" 7 Reachable.init
     (by decide) (by decide)⟩

/-- C7: a GET /users/{id} with an integer-parseable id always answers the 200
envelope whose userById field is the sequence of rows matching the id; over
any reachable store that sequence has zero or one element, namely the unique
matching row when one exists and no element otherwise. -/
theorem user_by_id_zero_or_one (st : Store) (uid : String) (n : Int)
    (hst : Reachable st) (hparse : pyInt uid = some n) :
    user_by_id_get st (some uid) =
      Except.ok
        { store := st,
          response := { status := 200,
                        body := Json.obj [("result", Json.bool true),
                                          ("userById",
                                           Json.arr ((st.rows.filter
                                             (fun r => (r.id : Int) == n)).map userToJson))] },
          executed := [("SELECT * FROM users" ++ " WHERE id=?", [SqlValue.i n])] } ∧
    (st.rows.filter (fun r => (r.id : Int) == n)).length ≤ 1 ∧
    (∀ r ∈ st.rows, (r.id : Int) = n →
      st.rows.filter (fun r => (r.id : Int) == n) = [r]) ∧
    ((∀ r ∈ st.rows, (r.id : Int) ≠ n) →
      st.rows.filter (fun r => (r.id : Int) == n) = []) := by
  refine ⟨?_, ?_, ?_, ?_⟩
  · simp only [user_by_id_get, hparse]
  · exact filter_id_length_le_one st.rows n (reachable_inv hst).2.1
  · intro r hr hid
    exact filter_id_eq_singleton st.rows n r (reachable_inv hst).2.1 hr hid
  · exact filter_id_eq_nil st.rows n

theorem user_by_id_zero_or_one_witness :
    Reachable emptyStore ∧ pyInt "7" = some 7 ∧
    (user_by_id_get emptyStore (some "7") =
      Except.ok
        { store := emptyStore,
          response := { status := 200,
                        body := Json.obj [("result", Json.bool true),
                                          ("userById",
                                           Json.arr ((emptyStore.rows.filter
                                             (fun r => (r.id : Int) == 7)).map userToJson))] },
          executed := [("SELECT * FROM users" ++ " WHERE id=?", [SqlValue.i 7])] } ∧
     (emptyStore.rows.filter (fun r => (r.id : Int) == 7)).length ≤ 1 ∧
     (∀ r ∈ emptyStore.rows, (r.id : Int) = 7 →
       emptyStore.rows.filter (fun r => (r.id : Int) == 7) = [r]) ∧
     ((∀ r ∈ emptyStore.rows, (r.id : Int) ≠ 7) →
       emptyStore.rows.filter (fun r => (r.id : Int) == 7) = [])) :=
  ⟨Reachable.init, by decide,
   user_by_id_zero_or_one emptyStore "7" 7 Reachable.init (by decide)⟩

/-- C9: the name handling branch of GET /users can never produce the 400
response whose errors field is invalid id, because str() applied to the
already-string name argument returns it and cannot raise; whenever the two
page parameters parse as integers the response status is 200, whatever
string the name filter holds. -/
theorem users_get_name_never_invalid_id (st : Store) (req : ListRequest) :
    (users_get st req).response.body ≠ errorBody (Json.str "invalid id") ∧
    (∀ pn ps : Int, parse_page_param req.page_num 1 = some pn →
      parse_page_param req.page_size 10 = some ps →
      (users_get st req).response.status = 200) := by
  constructor
  · unfold users_get
    cases h1 : parse_page_param req.page_num 1 with
    | none => simp [errorBody]
    | some pn =>
      cases h2 : parse_page_param req.page_size 10 with
      | none => simp [errorBody]
      | some ps =>
        cases hn : req.name with
        | none => simp [errorBody]
        | some raw => simp [pyStr, errorBody]
  · intro pn ps hpn hps
    unfold users_get
    rw [hpn, hps]
    cases hn : req.name with
    | none => rfl
    | some raw => rfl

theorem users_get_name_never_invalid_id_witness :
    parse_page_param (some "1" : Option String) 1 = some 1 ∧
    parse_page_param (some "10" : Option String) 10 = some 10 ∧
    (users_get emptyStore
        { page_num := some "1", page_size := some "10", name := some "J4ne" }).response.body ≠
      errorBody (Json.str "invalid id") ∧
    (users_get emptyStore
        { page_num := some "1", page_size := some "10", name := some "J4ne" }).response.status = 200 :=
  ⟨by decide, by decide,
   (users_get_name_never_invalid_id emptyStore
     { page_num := some "1", page_size := some "10", name := some "J4ne" }).1,
   (users_get_name_never_invalid_id emptyStore
     { page_num := some "1", page_size := some "10", name := some "J4ne" }).2
     1 10 (by decide) (by decide)⟩

theorem match_route_userById (path seg : String)
    (h : match_route path = Route.userById seg) :
    user_by_id_capture path = some seg := by
  unfold match_route at h
  by_cases h1 : path = "/users/ping"
  · rw [if_pos h1] at h
    cases h
  · rw [if_neg h1] at h
    cases hc : user_by_id_capture path with
    | none =>
      rw [hc] at h
      by_cases h2 : path = "/users" <;> simp [h2] at h
    | some s2 =>
      rw [hc] at h
      simp only [Route.userById.injEq] at h
      rw [← h]

theorem user_by_id_capture_ne_empty (path seg : String)
    (h : user_by_id_capture path = some seg) : seg ≠ "" := by
  simp only [user_by_id_capture] at h
  split_ifs at h with h1 h2
  · injection h with h
    obtain ⟨hne, _⟩ := h2
    intro he
    apply hne
    have h3 : (String.mk (path.data.drop 7)).data = ("" : String).data := by
      rw [h, he]
    simpa using h3

/-- C10: every path the dispatcher sends to the fetch-by-id handler captures
a segment of at least one character, so the handler never reaches the
unfiltered select: its outcome is always ok, meaning the args tuple was
bound before the query ran, and every statement it executes carries the
WHERE id=? filter. -/
theorem user_by_id_dispatch_always_filtered (path seg : String) (st : Store)
    (h : match_route path = Route.userById seg) :
    seg ≠ "" ∧
    ∃ o : HandlerOutcome, user_by_id_get st (some seg) = Except.ok o ∧
      ∀ q ∈ o.executed, q.1 = "SELECT * FROM users" ++ " WHERE id=?" := by
  refine ⟨user_by_id_capture_ne_empty path seg (match_route_userById path seg h), ?_⟩
  cases hp : pyInt seg with
  | none =>
    refine ⟨{ store := st,
              response := { status := 400, body := errorBody (Json.str "invalid user_id") },
              executed := [] }, ?_, ?_⟩
    · simp [user_by_id_get, hp]
    · intro q hq
      simp at hq
  | some n =>
    refine ⟨{ store := st,
              response := { status := 200,
                            body := Json.obj [("result", Json.bool true),
                                              ("userById",
                                               Json.arr ((st.rows.filter
                                                 (fun r => (r.id : Int) == n)).map userToJson))] },
              executed := [("SELECT * FROM users" ++ " WHERE id=?", [SqlValue.i n])] },
            ?_, ?_⟩
    · simp [user_by_id_get, hp]
    · intro q hq
      simp only [List.mem_singleton] at hq
      rw [hq]

theorem user_by_id_dispatch_always_filtered_witness :
    match_route "/users/42" = Route.userById "42" ∧
    ("42" ≠ "" ∧
     ∃ o : HandlerOutcome, user_by_id_get emptyStore (some "42") = Except.ok o ∧
       ∀ q ∈ o.executed, q.1 = "SELECT * FROM users" ++ " WHERE id=?") :=
  ⟨by decide,
   user_by_id_dispatch_always_filtered "/users/42" "42" emptyStore (by decide)⟩
